import Mathlib

/-!
Verification of the ONNX-Metadata repository.

This file gives a shallow embedding of the two programs of the repository:

* `onnx-model-validator.py` -- the interface diff engine (`diff_models` and
  the status computation of `main`);
* `set_onnx_metadata.py` -- the metadata schema, validator
  (`_metadata_validator`), and write pipeline (`_add_metadata` and the
  entry-count check of `_write_model_metadata`).

Machine-level I/O (loading models through onnxruntime or onnx, argparse,
file handling) is external and is not modelled; descriptor sequences and
metadata records enter the embedded functions directly, as they do in the
Python functions under verification.
-/

/-! ## Interface diff engine (`onnx-model-validator.py`) -/

/-- One dimension of a tensor shape: a fixed integer or a symbolic
(dynamic) axis name, as produced by onnxruntime. -/
inductive Dim where
  | fixed (n : Int)
  | sym (s : String)
deriving DecidableEq

/-- A parsed layer record as built by `parse_layers`: the Python dict
with keys `id`, `name`, `shape`.  Python dict equality on these records
is structural, which the derived `DecidableEq` mirrors. -/
structure LayerDesc where
  id : Int
  name : String
  shape : List Dim
deriving DecidableEq

/-- The values computed by `diff_models` (lines 69-104): the two
one-sided difference lists, their concatenation, the per-group
compatibility flag written into the report, and the returned status. -/
structure GroupResult where
  compatible : Bool
  a_minus_b : List LayerDesc
  b_minus_a : List LayerDesc
  sym_diff : List LayerDesc
  status : Nat
deriving DecidableEq

/-- `diff_models(a, b, group)`.  The group label only selects report keys
and does not influence any computed value, so it is dropped.
`a_minus_b = [item for item in a if item not in b]` is list membership
(set-style), while `compatible` reflects `a == b`, the ordered
element-wise list equality; `status` is 0 exactly when `a == b`. -/
def diff_models (a b : List LayerDesc) : GroupResult :=
  let a_minus_b := a.filter (fun item => decide (item ∉ b))
  let b_minus_a := b.filter (fun item => decide (item ∉ a))
  { compatible := decide (a = b)
    a_minus_b := a_minus_b
    b_minus_a := b_minus_a
    sym_diff := a_minus_b ++ b_minus_a
    status := if a = b then 0 else 1 }

/-- The `--layer_type` selector of the CLI: `inputs`, `outputs`, `both`. -/
inductive LayerType where
  | inputs
  | outputs
  | both
deriving DecidableEq

/-- The two descriptor groups extracted from one model by
`get_in_out_layers`. -/
structure ModelLayers where
  inputs : List LayerDesc
  outputs : List LayerDesc

/-- The status computation of `main` (lines 180-202): `input_status` is
assigned only when the layer type is BOTH or INPUTS, `output_status` only
when it is BOTH or OUTPUTS (Python local variables, unbound otherwise),
and then `all_status = input_status + output_status` is evaluated
unconditionally.  When either local is unbound Python raises
`UnboundLocalError` and the process dies with the interpreter failure
exit code instead of reaching `sys.exit(status)`; the embedding returns
`Except.error` for that crash. -/
def mainStatus (layerType : LayerType) (a b : ModelLayers) : Except String Nat :=
  let inputStatus : Option Nat :=
    if layerType = LayerType.both ∨ layerType = LayerType.inputs then
      some (diff_models a.inputs b.inputs).status
    else
      Option.none
  let outputStatus : Option Nat :=
    if layerType = LayerType.both ∨ layerType = LayerType.outputs then
      some (diff_models a.outputs b.outputs).status
    else
      Option.none
  match inputStatus, outputStatus with
  | some i, some o => Except.ok (if i + o = 0 then 0 else 1)
  | _, _ => Except.error "UnboundLocalError"

/-- Concrete descriptors used as test inputs. -/
def dx : LayerDesc := { id := 0, name := "x", shape := [Dim.fixed 1, Dim.fixed 3] }

def dy : LayerDesc := { id := 1, name := "y", shape := [Dim.fixed 1] }

def du : LayerDesc := { id := 0, name := "u", shape := [Dim.fixed 2] }

def dv : LayerDesc := { id := 1, name := "v", shape := [Dim.sym "batch"] }

/-- A concrete pair of layer groups for the `main` status computation. -/
def modelAB : ModelLayers := { inputs := [dx], outputs := [dy] }

/-- If every element of `a` is an element of `b`, the membership filter
used by `diff_models` keeps nothing. -/
theorem filter_not_mem_nil {α : Type} [DecidableEq α] (a b : List α)
    (h : ∀ x ∈ a, x ∈ b) : a.filter (fun x => decide (x ∉ b)) = [] := by
  rw [List.filter_eq_nil_iff]
  intro x hx
  simp [h x hx]

/-- C8: comparing any descriptor sequence with itself yields
`compatible = true` and both one-sided difference lists empty. -/
theorem diff_models_refl (a : List LayerDesc) :
    (diff_models a a).compatible = true ∧
    (diff_models a a).a_minus_b = [] ∧ (diff_models a a).b_minus_a = [] := by
  refine ⟨by simp [diff_models], ?_, ?_⟩ <;> simp [diff_models]

/-- C2 counterexample: for `a = [du, dv]` and `b = [dv, du]` the claimed
equivalence between `compatible = true` and both one-sided difference
lists being empty is false: both lists are empty while `compatible` is
false. -/
theorem diff_models_compatible_iff_cex :
    ¬ (((diff_models [du, dv] [dv, du]).compatible = true) ↔
      ((diff_models [du, dv] [dv, du]).a_minus_b = [] ∧
       (diff_models [du, dv] [dv, du]).b_minus_a = [])) := by
  decide

/-- C2 (amended): `compatible = true` implies that both one-sided
difference lists are empty; the converse direction does not hold. -/
theorem diff_models_compatible_imp_empty (a b : List LayerDesc)
    (h : (diff_models a b).compatible = true) :
    (diff_models a b).a_minus_b = [] ∧ (diff_models a b).b_minus_a = [] := by
  have hab : a = b := by simpa [diff_models] using h
  subst hab
  refine ⟨?_, ?_⟩ <;> simp [diff_models]

/-- C2 witness: the amended implication at the concrete input `[dx]`,
`[dx]`, whose comparison is compatible. -/
theorem diff_models_compatible_imp_empty_witness :
    (diff_models [dx] [dx]).a_minus_b = [] ∧
    (diff_models [dx] [dx]).b_minus_a = [] :=
  diff_models_compatible_imp_empty [dx] [dx] (by decide)

/-- C3: if `a` and `b` hold the same multiset of descriptors in a
different order, then `compatible` is false (ordered equality) while both
one-sided difference lists are empty (set membership). -/
theorem diff_models_perm (a b : List LayerDesc) (hp : a.Perm b) (hne : a ≠ b) :
    (diff_models a b).compatible = false ∧
    (diff_models a b).a_minus_b = [] ∧ (diff_models a b).b_minus_a = [] := by
  refine ⟨by simp [diff_models]; exact hne, ?_, ?_⟩
  · simpa [diff_models] using
      filter_not_mem_nil a b (fun x hx => hp.mem_iff.mp hx)
  · simpa [diff_models] using
      filter_not_mem_nil b a (fun x hx => hp.mem_iff.mpr hx)

/-- C3 witness: the reordered pair from the specification,
`A = [dx, dy]`, `B = [dy, dx]`. -/
theorem diff_models_perm_witness :
    (diff_models [dx, dy] [dy, dx]).compatible = false ∧
    (diff_models [dx, dy] [dy, dx]).a_minus_b = [] ∧
    (diff_models [dx, dy] [dy, dx]).b_minus_a = [] :=
  diff_models_perm [dx, dy] [dy, dx] (List.Perm.swap dy dx []) (by decide)

/-- C1: requesting a single group makes `main` crash.  With
`layer_type = inputs` and two models with identical inputs the status
computation raises `UnboundLocalError` (the local `output_status` is
never assigned), so the process does not exit with status 0 even though
the only requested group is compatible; with `layer_type = both` the
exit status is 0 for identical models as documented. -/
theorem mainStatus_single_group_crash :
    mainStatus LayerType.inputs modelAB modelAB = Except.error "UnboundLocalError" ∧
    (diff_models modelAB.inputs modelAB.inputs).status = 0 ∧
    mainStatus LayerType.both modelAB modelAB = Except.ok 0 :=
  ⟨rfl, rfl, rfl⟩

/-! ## Metadata tool (`set_onnx_metadata.py`): value model -/

/-- A Python value as it can appear in the JSON metadata configuration:
string, integer, boolean, list, or null. -/
inductive PyVal where
  | str (s : String)
  | int (n : Int)
  | bool (b : Bool)
  | list (xs : List PyVal)
  | none

/-- The Python classes named in the `TYPES` schema: `str`, `int`, `list`. -/
inductive PyType where
  | str
  | int
  | list
deriving DecidableEq

/-- Python `isinstance(value, cls)` for the classes of the schema.  In
Python `bool` is a subclass of `int`, so `isinstance(True, int)` is
true; the embedding reproduces that. -/
def pyIsInstance : PyVal → PyType → Bool
  | PyVal.str _, PyType.str => true
  | PyVal.int _, PyType.int => true
  | PyVal.bool _, PyType.int => true
  | PyVal.list _, PyType.list => true
  | _, _ => false

/-- Python `value is None or value == ""`: only `None` and the empty
string satisfy it (no other value compares equal to `""`). -/
def pyIsEmptyValue : PyVal → Bool
  | PyVal.none => true
  | PyVal.str s => decide (s = "")
  | _ => false

/-- Python `str.upper()` (the strings of this program are ASCII). -/
def pyUpper (s : String) : String := String.mk (s.data.map Char.toUpper)

/-- Helper for Python `str.find`: the first index at or after `i` (in
the original string) where `sub` occurs in the remaining suffix `s`. -/
def pyFindAux (sub : List Char) : List Char → Nat → Option Nat
  | [], i => if sub.isPrefixOf ([] : List Char) then some i else Option.none
  | c :: rest, i =>
    if sub.isPrefixOf (c :: rest) then some i else pyFindAux sub rest (i + 1)

/-- Python `s.find(sub)`: the lowest index where `sub` occurs as a
substring of `s`, and `-1` when it does not occur. -/
def pyFind (s sub : String) : Int :=
  match pyFindAux sub.data s.data 0 with
  | some i => (i : Int)
  | Option.none => -1

/-- `sub` occurs in `s` at position `i` (the substring of `s` starting
at index `i` begins with `sub`). -/
def occursAt (s sub : String) (i : Nat) : Bool :=
  sub.data.isPrefixOf (s.data.drop i)

/-- Python `sub in s` for strings: substring containment. -/
def pyInStr (sub s : String) : Bool := decide (0 ≤ pyFind s sub)

/-! ## Metadata tool: schema -/

/-- The `METADATA` template dictionary (lines 23-35): required keys with
their human-readable template placeholder values. -/
def METADATA : List (String × String) := [
  ("model_type", "String: Object Detection, Pixel Segmentation, etc."),
  ("model_architecture", "String: Detectron 2, SAM, Custom, etc."),
  ("number_of_classes", "Integer: Number of trained classes, e.g., 1, 2, 3, etc."),
  ("number_of_bands", "Integer: Number of bands the model trained with, e.g., 3"),
  ("number_of_epochs", "Integer: How many epochs did the model train, e.g., 100"),
  ("class_names", "List[str]: Class ID ordered class names, e.g., [person, car, ...]"),
  ("vendor_name", "String: Company distributing the model, e.g. NV5"),
  ("model_author", "String: Original author of the model architecture, e.g., clees"),
  ("model_license", "String: License for the model, e.g., Apache 2.0"),
  ("model_version", "Integer: Nth version of the model distributed to NV5, e.g., 1, 2, etc."),
  ("model_date", "String: Date for which the model is ready, e.g., 2025-01-01")
]

/-- The `TYPES` dictionary (lines 37-42): expected Python type per key. -/
def TYPES : List (String × PyType) := [
  ("model_type", PyType.str), ("model_architecture", PyType.str),
  ("number_of_classes", PyType.int), ("number_of_bands", PyType.int),
  ("number_of_epochs", PyType.int), ("class_names", PyType.list),
  ("vendor_name", PyType.str), ("model_author", PyType.str),
  ("model_license", PyType.str), ("model_version", PyType.int),
  ("model_date", PyType.str)
]

/-- `list(METADATA.keys())` -- the required key list, in declaration
order. -/
def META_KEYS : List String := METADATA.map Prod.fst

/-- The `NON_PERMISIVE_LICENSES` deny-list (lines 46-51), in source
order (the validator reports the first matching token). -/
def NON_PERMISIVE_LICENSES : List String := [
  "GPL", "AGPL", "LGPL",
  "CC BY-NC", "CC BY-NC-SA",
  "CC BY-ND", "CC BY-NC-ND",
  "GNU", "APSL", "EPL", "MPL"
]

/-! ## Metadata tool: validator (`_metadata_validator`, lines 101-140) -/

/-- How one run of `_metadata_validator` can fail.  The first six
constructors are `_error` calls (stderr message, `sys.exit(1)`); the
`py...` constructors are uncaught Python exceptions that crash the
interpreter (same exit code, but a traceback instead of the colored
message). -/
inductive VErr where
  | missingKeys (diff : List String)
  | emptyValue (key : String)
  | typeMismatch (key : String)
  | templateMatch (key : String)
  | classCountMismatch (n : Int) (value : PyVal)
  | nonPermissiveLicense (lic : String)
  | pyKeyError (key : String)
  | pyTypeError (msg : String)
  | pyAttrError (key : String)

/-- The template-value check (lines 124-126): only string values are
checked; the template placeholder is looked up in `METADATA` by the
key of the entry, which raises `KeyError` for a key outside the
schema. -/
def templateCheck (key : String) (value : PyVal) : Except VErr Unit :=
  match value with
  | PyVal.str s =>
    match METADATA.lookup key with
    | some tmpl =>
      if pyInStr tmpl s then Except.error (VErr.templateMatch key)
      else Except.ok ()
    | Option.none => Except.error (VErr.pyKeyError key)
  | _ => Except.ok ()

/-- The per-entry body of the validation loop (lines 117-126): empty
check, then type check for schema keys, then template check. -/
def checkEntry (key : String) (value : PyVal) : Except VErr Unit :=
  if pyIsEmptyValue value then Except.error (VErr.emptyValue key)
  else
    match TYPES.lookup key with
    | some expected =>
      if pyIsInstance value expected = false then
        Except.error (VErr.typeMismatch key)
      else templateCheck key value
    | Option.none => templateCheck key value

/-- The validation loop over `metadata.items()`, in record order,
stopping at the first failure (`_error` exits the process). -/
def checkEntries : List (String × PyVal) → Except VErr Unit
  | [] => Except.ok ()
  | (key, value) :: rest =>
    match checkEntry key value with
    | Except.error e => Except.error e
    | Except.ok _ => checkEntries rest

/-- Python `len(value)` for the values that can reach line 129: defined
for lists and strings, a `TypeError` crash otherwise. -/
def pyLen : PyVal → Except VErr Int
  | PyVal.list xs => Except.ok (xs.length : Int)
  | PyVal.str s => Except.ok (s.length : Int)
  | _ => Except.error (VErr.pyTypeError "object of this type has no len")

/-- Python `n == value` for an `int` left operand: numeric equality
against `int` and `bool` (`True == 1`, `False == 0`), false against any
other type. -/
def pyEqInt (n : Int) : PyVal → Bool
  | PyVal.int m => decide (n = m)
  | PyVal.bool b => decide (n = (if b then 1 else 0))
  | _ => false

/-- The license gate (lines 136-140): iterate over the deny-list and
fail on the first token whose `find` in the uppercased license string is
strictly positive. -/
def licenseCheck (lic : String) : Except VErr Unit :=
  match NON_PERMISIVE_LICENSES.find? (fun npl => decide (pyFind lic npl > 0)) with
  | some _ => Except.error (VErr.nonPermissiveLicense lic)
  | Option.none => Except.ok ()

/-- The checks after the per-entry loop (lines 128-140): class-count
consistency, then the license gate.  The dictionary lookups cannot fail
after the required-key check, but the embedding stays total and models
a failing lookup as the `KeyError` Python would raise. -/
def crossChecks (metadata : List (String × PyVal)) : Except VErr Unit :=
  match metadata.lookup "class_names" with
  | Option.none => Except.error (VErr.pyKeyError "class_names")
  | some classNames =>
    match pyLen classNames with
    | Except.error e => Except.error e
    | Except.ok n =>
      match metadata.lookup "number_of_classes" with
      | Option.none => Except.error (VErr.pyKeyError "number_of_classes")
      | some numberOfClasses =>
        if pyEqInt n numberOfClasses = false then
          Except.error (VErr.classCountMismatch n numberOfClasses)
        else
          match metadata.lookup "model_license" with
          | Option.none => Except.error (VErr.pyKeyError "model_license")
          | some (PyVal.str lic) => licenseCheck (pyUpper lic)
          | some _ => Except.error (VErr.pyAttrError "model_license")

/-- The required keys absent from the record: `set(meta_keys) - set(keys)`
(kept in `META_KEYS` order; Python prints it as an unordered set). -/
def missingMetaKeys (metadata : List (String × PyVal)) : List String :=
  META_KEYS.filter (fun k => decide (k ∉ metadata.map Prod.fst))

/-- `_metadata_validator(metadata)` (lines 101-140): required-key
completeness first (a hard stop), then the per-entry loop, then the
cross-field and license checks. -/
def metadataValidator (metadata : List (String × PyVal)) : Except VErr Unit :=
  if missingMetaKeys metadata = [] then
    match checkEntries metadata with
    | Except.error e => Except.error e
    | Except.ok _ => crossChecks metadata
  else
    Except.error (VErr.missingKeys (missingMetaKeys metadata))

/-! ## Properties of `pyFind` (Python `str.find`) -/

/-- `pyFindAux` never answers an index below its counter. -/
theorem pyFindAux_le (sub : List Char) :
    ∀ (s : List Char) (i j : Nat), pyFindAux sub s i = some j → i ≤ j := by
  intro s
  induction s with
  | nil =>
    intro i j h
    unfold pyFindAux at h
    split at h
    · cases h; exact Nat.le_refl _
    · cases h
  | cons c rest ih =>
    intro i j h
    unfold pyFindAux at h
    split at h
    · cases h; exact Nat.le_refl _
    · exact Nat.le_trans (Nat.le_succ i) (ih (i + 1) j h)

/-- A successful `pyFindAux` answer is an occurrence position. -/
theorem pyFindAux_occurs (sub : List Char) :
    ∀ (s : List Char) (i j : Nat), pyFindAux sub s i = some j →
      sub.isPrefixOf (s.drop (j - i)) = true := by
  intro s
  induction s with
  | nil =>
    intro i j h
    unfold pyFindAux at h
    split at h
    next hp => cases h; simpa using hp
    next => cases h
  | cons c rest ih =>
    intro i j h
    unfold pyFindAux at h
    split at h
    next hp => cases h; simpa using hp
    next hp =>
      have hle := pyFindAux_le sub rest (i + 1) j h
      have hrec := ih (i + 1) j h
      have hidx : j - i = (j - (i + 1)) + 1 := by omega
      rw [hidx, List.drop_succ_cons]
      exact hrec

/-- A failing `pyFindAux` means the pattern occurs nowhere. -/
theorem pyFindAux_none (sub : List Char) :
    ∀ (s : List Char) (i : Nat), pyFindAux sub s i = Option.none →
      ∀ d, sub.isPrefixOf (s.drop d) = false := by
  intro s
  induction s with
  | nil =>
    intro i h d
    unfold pyFindAux at h
    split at h
    next => cases h
    next hp =>
      rw [List.drop_nil]
      exact Bool.eq_false_iff.mpr hp
  | cons c rest ih =>
    intro i h d
    unfold pyFindAux at h
    split at h
    next => cases h
    next hp =>
      match d with
      | 0 => exact Bool.eq_false_iff.mpr hp
      | Nat.succ e =>
        rw [List.drop_succ_cons]
        exact ih (i + 1) h e

/-- When the pattern occurs right at the start, `pyFindAux` answers its
counter immediately. -/
theorem pyFindAux_head (sub : List Char) (s : List Char) (i : Nat)
    (h : sub.isPrefixOf s = true) : pyFindAux sub s i = some i := by
  cases s with
  | nil => unfold pyFindAux; rw [if_pos h]
  | cons c rest => unfold pyFindAux; rw [if_pos h]

/-- Python `s.find(sub) > 0` holds exactly when `sub` occurs somewhere
in `s` but does not occur at position 0: the first occurrence is at a
strictly positive index. -/
theorem pyFind_pos_iff (s sub : String) :
    pyFind s sub > 0 ↔
      ((∃ i, occursAt s sub i = true) ∧ occursAt s sub 0 = false) := by
  unfold pyFind occursAt
  cases haux : pyFindAux sub.data s.data 0 with
  | none =>
    simp only [haux]
    constructor
    · intro h
      exact absurd h (by norm_num)
    · rintro ⟨⟨i, hi⟩, h0⟩
      have hall := pyFindAux_none sub.data s.data 0 haux i
      rw [hi] at hall
      cases hall
  | some j =>
    simp only [haux]
    have hocc := pyFindAux_occurs sub.data s.data 0 j haux
    rw [Nat.sub_zero] at hocc
    constructor
    · intro hj
      have hjpos : 0 < j := by exact_mod_cast hj
      refine ⟨⟨j, hocc⟩, ?_⟩
      cases h0 : sub.data.isPrefixOf (s.data.drop 0) with
      | false => rfl
      | true =>
        rw [List.drop_zero] at h0
        have hhead := pyFindAux_head sub.data s.data 0 h0
        rw [haux] at hhead
        cases hhead
        exact absurd hjpos (by omega)
    · rintro ⟨⟨i, hi⟩, h0⟩
      have hj0 : j ≠ 0 := by
        intro hz
        rw [hz, List.drop_zero] at hocc
        rw [List.drop_zero] at h0
        rw [hocc] at h0
        cases h0
      have : 0 < j := Nat.pos_of_ne_zero hj0
      exact_mod_cast this

/-! ## Concrete metadata records -/

/-- A record with every required key; the three fields the tests vary
(`number_of_classes`, `class_names`, `model_license`) are parameters,
the other eight keys hold fixed, schema-conforming values. -/
def mkRecord (numberOfClasses classNames modelLicense : PyVal) :
    List (String × PyVal) := [
  ("model_type", PyVal.str "Object Detection"),
  ("model_architecture", PyVal.str "Custom"),
  ("number_of_classes", numberOfClasses),
  ("number_of_bands", PyVal.int 3),
  ("number_of_epochs", PyVal.int 100),
  ("class_names", classNames),
  ("vendor_name", PyVal.str "NV5"),
  ("model_author", PyVal.str "clees"),
  ("model_license", modelLicense),
  ("model_version", PyVal.int 1),
  ("model_date", PyVal.str "2025-01-01")
]

/-- A fully valid record. -/
def recValid : List (String × PyVal) :=
  mkRecord (PyVal.int 2) (PyVal.list [PyVal.str "car", PyVal.str "person"])
    (PyVal.str "Apache 2.0")

/-- Valid except that the integer-typed `number_of_classes` holds the
boolean `True` (with a single class name, since `1 == True` in Python). -/
def recBool : List (String × PyVal) :=
  mkRecord (PyVal.bool true) (PyVal.list [PyVal.str "car"])
    (PyVal.str "Apache 2.0")

/-- Valid values with `model_license = "MIT/GPL"`. -/
def recMIT : List (String × PyVal) :=
  mkRecord (PyVal.int 2) (PyVal.list [PyVal.str "car", PyVal.str "person"])
    (PyVal.str "MIT/GPL")

/-- Valid values with `model_license = "GPL v3"`. -/
def recGPLv3 : List (String × PyVal) :=
  mkRecord (PyVal.int 2) (PyVal.list [PyVal.str "car", PyVal.str "person"])
    (PyVal.str "GPL v3")

/-- Valid values with `model_license = "GPL GPL"`. -/
def recGPLGPL : List (String × PyVal) :=
  mkRecord (PyVal.int 2) (PyVal.list [PyVal.str "car", PyVal.str "person"])
    (PyVal.str "GPL GPL")

/-- The valid record plus one extra non-schema key with a string value. -/
def recExtraStr : List (String × PyVal) :=
  recValid ++ [("custom_note", PyVal.str "hello world")]

/-- The valid record plus one extra non-schema key with an integer value. -/
def recExtraInt : List (String × PyVal) :=
  recValid ++ [("custom_rank", PyVal.int 7)]

/-- A record missing `model_date`, with a type-violating value for
`number_of_classes` (so that a type check, were it reached, would fail). -/
def recMissingDate : List (String × PyVal) := [
  ("model_type", PyVal.str "Object Detection"),
  ("model_architecture", PyVal.str "Custom"),
  ("number_of_classes", PyVal.str "two"),
  ("number_of_bands", PyVal.int 3),
  ("number_of_epochs", PyVal.int 100),
  ("class_names", PyVal.list [PyVal.str "car", PyVal.str "person"]),
  ("vendor_name", PyVal.str "NV5"),
  ("model_author", PyVal.str "clees"),
  ("model_license", PyVal.str "Apache 2.0"),
  ("model_version", PyVal.int 1)
]

/-! ## Validator theorems -/

/-- C4 counterexample: `number_of_classes` is declared integer-typed, yet
supplying the boolean `True` for it is not rejected: the per-entry check
accepts the entry and the whole validator accepts the record `recBool`. -/
theorem bool_as_int_cex :
    checkEntry "number_of_classes" (PyVal.bool true) = Except.ok () ∧
    metadataValidator recBool = Except.ok () :=
  ⟨rfl, rfl⟩

/-- C4 (amended): because Python `bool` is a subclass of `int`,
`isinstance` accepts a boolean wherever an integer is declared: the
per-entry check never raises a type error for a boolean under an
integer-typed key, and the record with `number_of_classes = True`
passes the whole validator. -/
theorem bool_as_int_accepted :
    (∀ (key : String) (b : Bool), TYPES.lookup key = some PyType.int →
      checkEntry key (PyVal.bool b) = Except.ok ()) ∧
    metadataValidator recBool = Except.ok () := by
  refine ⟨?_, rfl⟩
  intro key b hk
  unfold checkEntry
  rw [hk]
  simp [pyIsEmptyValue, pyIsInstance, templateCheck]

/-- C4 witness: the amended statement applied at the concrete key
`number_of_classes` and value `True`. -/
theorem bool_as_int_accepted_witness :
    checkEntry "number_of_classes" (PyVal.bool true) = Except.ok () :=
  bool_as_int_accepted.1 "number_of_classes" true (by decide)

/-- C5: an extra non-schema key whose value is a string makes the
validator crash with a Python `KeyError` in the template check
(`METADATA[key]`), instead of completing the per-key checks; an extra
key with a non-string value is indeed not rejected. -/
theorem extra_key_keyerror :
    metadataValidator recExtraStr = Except.error (VErr.pyKeyError "custom_note") ∧
    metadataValidator recExtraInt = Except.ok () :=
  ⟨rfl, rfl⟩

/-- C7: a record missing one or more required keys fails with the
missing-key error, whatever its other values are -- in particular before
any per-key emptiness, type, or template check can report anything. -/
theorem missing_key_first (r : List (String × PyVal))
    (h : ∃ k ∈ META_KEYS, k ∉ r.map Prod.fst) :
    metadataValidator r = Except.error (VErr.missingKeys (missingMetaKeys r)) ∧
    missingMetaKeys r ≠ [] := by
  obtain ⟨k, hk, hnk⟩ := h
  have hmem : k ∈ missingMetaKeys r := by
    unfold missingMetaKeys
    rw [List.mem_filter]
    exact ⟨hk, by simpa using hnk⟩
  have hne : missingMetaKeys r ≠ [] := by
    intro h0
    rw [h0] at hmem
    cases hmem
  refine ⟨?_, hne⟩
  unfold metadataValidator
  rw [if_neg hne]

/-- C7 witness: the record lacking `model_date` (and carrying a
type-violating `number_of_classes`) is rejected with the missing-key
error, not with a type error. -/
theorem missing_key_first_witness :
    metadataValidator recMissingDate =
      Except.error (VErr.missingKeys (missingMetaKeys recMissingDate)) ∧
    missingMetaKeys recMissingDate ≠ [] :=
  missing_key_first recMissingDate ⟨"model_date", by decide, by decide⟩

/-- C6 counterexample: the uppercased license `"GPL GPL"` contains the
deny-listed token `"GPL"` at position 4 (strictly greater than zero),
yet the validator accepts the record, because `str.find` reports the
first occurrence, which is position 0. -/
theorem license_gate_cex :
    occursAt (pyUpper "GPL GPL") "GPL" 4 = true ∧
    "GPL" ∈ NON_PERMISIVE_LICENSES ∧
    metadataValidator recGPLGPL = Except.ok () :=
  ⟨rfl, by decide, rfl⟩

/-- C6 (amended): the license gate rejects exactly when some deny-listed
token occurs in the uppercased license but not at position 0 (its first
occurrence, Python `str.find`, is strictly positive).  In particular
`model_license = "MIT/GPL"` is rejected and `model_license = "GPL v3"`
passes the gate and the whole validator. -/
theorem license_gate_spec :
    (∀ lic : String,
      licenseCheck lic = Except.error (VErr.nonPermissiveLicense lic) ↔
        ∃ npl ∈ NON_PERMISIVE_LICENSES,
          (∃ i, occursAt lic npl i = true) ∧ occursAt lic npl 0 = false) ∧
    metadataValidator recMIT = Except.error (VErr.nonPermissiveLicense "MIT/GPL") ∧
    metadataValidator recGPLv3 = Except.ok () := by
  refine ⟨?_, rfl, rfl⟩
  intro lic
  unfold licenseCheck
  cases hf : NON_PERMISIVE_LICENSES.find? (fun npl => decide (pyFind lic npl > 0)) with
  | some npl =>
    simp only [hf]
    constructor
    · intro _
      refine ⟨npl, List.mem_of_find?_eq_some hf, ?_⟩
      have hp := List.find?_some hf
      exact (pyFind_pos_iff lic npl).mp (of_decide_eq_true hp)
    · intro _
      trivial
  | none =>
    simp only [hf]
    constructor
    · intro h
      cases h
    · rintro ⟨npl, hmem, hiff⟩
      have hnone := List.find?_eq_none.mp hf npl hmem
      exact absurd ((pyFind_pos_iff lic npl).mpr hiff) (by simpa using hnone)

/-! ## Write pipeline (`_add_metadata`, `_write_model_metadata`) -/

/-- A one-character string holding the double quote. -/
def dquote : String := String.singleton (Char.ofNat 34)

/-- A one-character string holding the backslash. -/
def bslash : String := String.singleton (Char.ofNat 92)

/-- The lowercase hexadecimal digit of `n mod 16`, as printed by the
`json` module. -/
def hexDigitChar (n : Nat) : Char :=
  if n % 16 < 10 then Char.ofNat (48 + n % 16) else Char.ofNat (87 + n % 16)

/-- Four lowercase hex digits of `n mod 65536`. -/
def toHex4 (n : Nat) : String :=
  String.mk [hexDigitChar (n / 4096), hexDigitChar (n / 256),
    hexDigitChar (n / 16), hexDigitChar n]

/-- Escaping of one character by `json.dumps` with its default
`ensure_ascii=True`: short escapes for quote, backslash and the usual
control characters, `u` escapes for other characters outside the
printable ASCII range (astral-plane characters as a UTF-16 surrogate
pair). -/
def jsonEscapeChar (c : Char) : String :=
  if c = Char.ofNat 34 then bslash ++ dquote
  else if c = Char.ofNat 92 then bslash ++ bslash
  else if c = Char.ofNat 8 then bslash ++ "b"
  else if c = Char.ofNat 9 then bslash ++ "t"
  else if c = Char.ofNat 10 then bslash ++ "n"
  else if c = Char.ofNat 12 then bslash ++ "f"
  else if c = Char.ofNat 13 then bslash ++ "r"
  else if 32 ≤ c.toNat ∧ c.toNat ≤ 126 then String.singleton c
  else if c.toNat < 65536 then bslash ++ "u" ++ toHex4 c.toNat
  else
    bslash ++ "u" ++ toHex4 (55296 + (c.toNat - 65536) / 1024) ++
      bslash ++ "u" ++ toHex4 (56320 + (c.toNat - 65536) % 1024)

/-- Body of a JSON string literal for `s`. -/
def jsonEscape (s : String) : String := String.join (s.data.map jsonEscapeChar)

/-- `json.dumps(value)` with default arguments for the value shapes of
this program (item separator is a comma and a space). -/
def jsonDumps : PyVal → String
  | PyVal.str s => dquote ++ jsonEscape s ++ dquote
  | PyVal.int n => toString n
  | PyVal.bool b => if b then "true" else "false"
  | PyVal.none => "null"
  | PyVal.list xs =>
    "[" ++ String.intercalate ", " (xs.attach.map (fun x => jsonDumps x.1)) ++ "]"
termination_by v => sizeOf v
decreasing_by
  have hmem := List.sizeOf_lt_of_mem x.2
  simp only [PyVal.list.sizeOf_spec]
  omega

/-- `_add_metadata(model, dict_data)` (lines 84-98), seen through the
`metadata_props` entry list of the model: `del model.metadata_props[:]`
clears the prior entries, then the loop appends one `(key, value)` entry
per record item with the value JSON-encoded. -/
def addMetadata (_props : List (String × String))
    (dict_data : List (String × PyVal)) : List (String × String) :=
  dict_data.foldl (fun acc kv => acc ++ [(kv.1, jsonDumps kv.2)])
    ([] : List (String × String))

/-- Outcome of the final entry-count check of `_write_model_metadata`
(lines 186-191): the model is saved when the entry list is non-empty,
otherwise `_error` reports a failed write. -/
inductive WriteResult where
  | success
  | failure
deriving DecidableEq

/-- `if len(model.metadata_props) != 0: save ... else: _error(...)`. -/
def writeCheck (props : List (String × String)) : WriteResult :=
  if props.length ≠ 0 then WriteResult.success else WriteResult.failure

/-- Appending through a left fold is a map. -/
theorem foldl_append_eq_map {α β : Type} (f : α → β) (r : List α) (acc : List β) :
    r.foldl (fun l x => l ++ [f x]) acc = acc ++ r.map f := by
  induction r generalizing acc with
  | nil => simp
  | cons x xs ih => simp [ih, List.append_assoc]

/-- C9: `_add_metadata` leaves exactly one entry per record key, in
record order, with the JSON-encoded value; the result is independent of
the prior entries of the model (they are cleared in full), and applying
the operation twice with the same record equals applying it once. -/
theorem addMetadata_spec (props props2 : List (String × String))
    (r : List (String × PyVal)) :
    addMetadata props r = r.map (fun kv => (kv.1, jsonDumps kv.2)) ∧
    (addMetadata props r).map Prod.fst = r.map Prod.fst ∧
    (addMetadata props r).length = r.length ∧
    addMetadata props r = addMetadata props2 r ∧
    addMetadata (addMetadata props r) r = addMetadata props r := by
  have hmap : ∀ q : List (String × String),
      addMetadata q r = r.map (fun kv => (kv.1, jsonDumps kv.2)) := by
    intro q
    unfold addMetadata
    simpa using foldl_append_eq_map (fun kv : String × PyVal => (kv.1, jsonDumps kv.2)) r []
  refine ⟨hmap props, ?_, ?_, ?_, ?_⟩
  · rw [hmap props, List.map_map]
    rfl
  · rw [hmap props, List.length_map]
  · rw [hmap props, hmap props2]
  · rw [hmap (addMetadata props r), hmap props]

/-- C10: any record the validator accepts contains at least the 11
required keys, so `_add_metadata` produces at least 11 entries and the
`Failed to write metadata` branch of `_write_model_metadata` cannot be
reached for a validated record. -/
theorem validated_write_nonempty (props : List (String × String))
    (r : List (String × PyVal)) (h : metadataValidator r = Except.ok ()) :
    11 ≤ (addMetadata props r).length ∧
    writeCheck (addMetadata props r) = WriteResult.success := by
  have hmiss : missingMetaKeys r = [] := by
    by_contra hne
    unfold metadataValidator at h
    rw [if_neg hne] at h
    cases h
  have hsub : ∀ k ∈ META_KEYS, k ∈ r.map Prod.fst := by
    intro k hk
    by_contra hnk
    have hmem : k ∈ missingMetaKeys r := by
      unfold missingMetaKeys
      rw [List.mem_filter]
      exact ⟨hk, by simpa using hnk⟩
    rw [hmiss] at hmem
    cases hmem
  have hfin : META_KEYS.toFinset ⊆ (r.map Prod.fst).toFinset := by
    intro k hk
    rw [List.mem_toFinset] at hk ⊢
    exact hsub k hk
  have hcard : META_KEYS.toFinset.card = 11 := by decide
  have hlen : 11 ≤ (r.map Prod.fst).length := by
    calc 11 = META_KEYS.toFinset.card := hcard.symm
      _ ≤ (r.map Prod.fst).toFinset.card := Finset.card_le_card hfin
      _ ≤ (r.map Prod.fst).length := List.toFinset_card_le _
  rw [List.length_map] at hlen
  have hlen2 : (addMetadata props r).length = r.length := by
    unfold addMetadata
    rw [show r.foldl (fun l kv => l ++ [(kv.1, jsonDumps kv.2)])
        ([] : List (String × String)) =
        ([] : List (String × String)) ++
          r.map (fun kv => (kv.1, jsonDumps kv.2)) from
      foldl_append_eq_map _ r [], List.nil_append, List.length_map]
  refine ⟨by rw [hlen2]; exact hlen, ?_⟩
  unfold writeCheck
  rw [if_pos]
  omega

/-- C10 witness: the fully valid record is accepted by the validator and
yields a successful, at-least-11-entry write. -/
theorem validated_write_nonempty_witness :
    11 ≤ (addMetadata [] recValid).length ∧
    writeCheck (addMetadata [] recValid) = WriteResult.success :=
  validated_write_nonempty [] recValid rfl

/-- C6 witness: the first-occurrence characterization of the license
gate, instantiated at the concrete license string of the specification
example. -/
theorem license_gate_spec_witness :
    licenseCheck "MIT/GPL" = Except.error (VErr.nonPermissiveLicense "MIT/GPL") ↔
      ∃ npl ∈ NON_PERMISIVE_LICENSES,
        (∃ i, occursAt "MIT/GPL" npl i = true) ∧ occursAt "MIT/GPL" npl 0 = false :=
  license_gate_spec.1 "MIT/GPL"
